import Mathlib

/-!
Verification of `certbot-dns-metaname` (src/certbot_dns_metaname/__init__.py)
against its natural-language specification.

The development shallowly embeds the plugin's three components:
  * `MetanameApiClient.request` — the JSON-RPC transport (source lines 55-83),
    with the HTTP POST modelled as an oracle `post : Payload → PostResult`
    and the mutable `self.request_id` as explicit state (`ClientState`);
  * `Authenticator.metaname_domain_name_for_hostname` — zone resolution
    (source lines 155-175), including the dynamic-typing behaviour of the
    Python expression `hostname.strip(".").split(".", 1)[1:]`, whose value
    is a *list* of strings, not a string;
  * `Authenticator.performWith` / `Authenticator.cleanupWith` — the record
    lifecycle (source lines 177-216), with `self`'s collaborator methods
    (zone resolver, RPC client) passed as explicit function arguments and
    `self.created_record_reference` as explicit state.

Python strings are modelled as Lean `String`; the Python string methods
used by the source (`strip`, `split` with and without maxsplit) are defined
below over `List Char` with the exact CPython semantics.  Decoded JSON
values are modelled by `JVal`; a decoded JSON object is an association
list (CPython dicts from `json.loads` have unique keys).  Python exceptions
become `Except` errors carrying the same information the exception message
interpolates.
-/

/-! ## Python string primitives used by the source -/

/-- Characters of a string with leading and trailing dots removed:
CPython `s.strip(".")`. -/
def pyStripDots (s : String) : String :=
  String.mk (((s.data.dropWhile (· == '.')).reverse.dropWhile (· == '.')).reverse)

/-- Split a character list at the first occurrence of `'.'`, if any. -/
def breakAtDot : List Char → Option (List Char × List Char)
  | [] => none
  | c :: cs =>
    if c == '.' then some ([], cs)
    else (breakAtDot cs).map (fun p => (c :: p.1, p.2))

/-- CPython `s.split(".", 1)`: a list with one element when `s` has no dot,
otherwise the part before the first dot and the (unsplit) rest. -/
def pySplitDotOnce (s : String) : List String :=
  match breakAtDot s.data with
  | none => [s]
  | some (a, b) => [String.mk a, String.mk b]

/-- Split a character list at every `'.'`: CPython `s.split(".")`.
`[] ↦ [[]]` because `"".split(".") == [""]`. -/
def splitAllDots : List Char → List (List Char)
  | [] => [[]]
  | c :: cs =>
    if c == '.' then [] :: splitAllDots cs
    else
      match splitAllDots cs with
      | [] => [[c]]
      | g :: gs => (c :: g) :: gs

/-- CPython `s.split(".")` on a `String`. -/
def pySplitDots (s : String) : List String :=
  (splitAllDots s.data).map String.mk

/-- CPython `".".join(xs)`. -/
def joinDots : List String → String
  | [] => ""
  | [x] => x
  | x :: xs => x ++ "." ++ joinDots xs

/-- CPython `", ".join(xs)` (used only to render a Python list repr). -/
def joinCommaSpace : List String → String
  | [] => ""
  | [x] => x
  | x :: xs => x ++ ", " ++ joinCommaSpace xs

/-- A single-quote character, as CPython repr of a string uses it. -/
def pyQuote : String := String.singleton (Char.ofNat 39)

/-- CPython `repr` of a list of plain strings, e.g. as interpolated by an
f-string: a bracketed, comma-separated, quoted rendering. -/
def reprStrList (xs : List String) : String :=
  "[" ++ joinCommaSpace (xs.map (fun s => pyQuote ++ s ++ pyQuote)) ++ "]"

/-- Boolean prefix test on character lists. -/
def charsPrefixOf : List Char → List Char → Bool
  | [], _ => true
  | _ :: _, [] => false
  | a :: as, b :: bs => a == b && charsPrefixOf as bs

/-- Boolean contiguous-substring test on character lists. -/
def charsInfixOf (pat : List Char) : List Char → Bool
  | [] => charsPrefixOf pat []
  | c :: cs => charsPrefixOf pat (c :: cs) || charsInfixOf pat cs

/-- `strContains s pat` holds when `pat` occurs contiguously inside `s`
("the message names `pat`"). -/
def strContains (s pat : String) : Bool :=
  charsInfixOf pat.data s.data

/-! ## Decoded JSON values -/

/-- A decoded JSON value, as produced by `response.json()`.  Objects are
association lists (keys are unique in a decoded CPython dict).  JSON
numbers appearing in the source's data are integers, so only integers are
modelled. -/
inductive JVal where
  | null
  | bool (b : Bool)
  | int (n : Int)
  | str (s : String)
  | arr (xs : List JVal)
  | obj (fields : List (String × JVal))

/-- First-match lookup in a decoded JSON object: CPython `d.get(k, None)`
(`none` when the key is absent). -/
def dictGet (d : List (String × JVal)) (k : String) : Option JVal :=
  (d.find? (fun kv => kv.1 == k)).map (·.2)

/-- CPython equality between a JSON value and a non-negative Python int:
`int` compares numerically and `bool` compares as 0/1 (CPython
`True == 1`); every other value is unequal to an int. -/
def pyEqNat : JVal → Nat → Bool
  | .int n, m => n == (m : Int)
  | .bool b, m => (if b then (1 : Int) else 0) == (m : Int)
  | _, _ => false

/-! ## The RPC transport: `MetanameApiClient.request` (lines 55-83) -/

/-- Mutable state of a `MetanameApiClient` (its constructor, lines 41-53):
the request-id counter starts at 0; the auth parameters are fixed at
construction.  The endpoint and HTTP session live inside the `post`
oracle. -/
structure ClientState where
  request_id : Nat
  account_reference : String
  api_key : String

/-- The JSON body sent by `session.post` (lines 60-62): the skeleton
`{jsonrpc: "2.0"}` plus `id`, `method` and `params`.  In the source the
`params` key is always set, because the `*params` tuple is never `None`
(the `if params is not None` guard on line 61 is always true). -/
structure Payload where
  jsonrpc : String
  id : Nat
  method : String
  params : List JVal

/-- What `self.session.post(self.endpoint, json=payload).json()` did:
either a decoded JSON object, or `json()` raised `JSONDecodeError`, or the
POST itself raised (connection/timeout/HTTP failure).  `e` is the text of
the underlying exception. -/
inductive PostResult where
  | ok (response : List (String × JVal))
  | jsonDecodeError (e : String)
  | requestError (e : String)

/-- The exceptions `MetanameApiClient.request` raises, each carrying what
the corresponding message interpolates (the source uses one generic
`Exception` type distinguished by text; the spec calls these
`TransportError`, `ProtocolError` and `ApiError`):
  * `notJson e` — "Metaname API didn't return a JSON response: e" (line 67);
  * `callFailed e` — "Metaname API call failed: e" (line 69);
  * `outOfSequence response` — "Metaname API returned out of sequence
    response: response" (lines 72-74);
  * `apiError err` — "Metaname API error: err" (line 81);
  * `invalidResponse response` — "Metaname API returned an invalid
    response: response" (line 83). -/
inductive ReqError where
  | notJson (e : String)
  | callFailed (e : String)
  | outOfSequence (response : List (String × JVal))
  | apiError (err : JVal)
  | invalidResponse (response : List (String × JVal))

/-- The request body built on lines 60-62: id is the current counter and
the account reference and API key are prepended to the caller's params. -/
def requestPayload (st : ClientState) (method : String) (params : List JVal) : Payload :=
  { jsonrpc := "2.0"
    id := st.request_id
    method := method
    params := [.str st.account_reference, .str st.api_key] ++ params }

/-- The check on line 71: `response.get("id", None) != self.request_id`,
as a match (an absent or non-integer id never equals the counter; a JSON
boolean compares as 0/1, as in CPython). -/
def responseIdMatches (response : List (String × JVal)) (rid : Nat) : Bool :=
  match dictGet response "id" with
  | some v => pyEqNat v rid
  | none => false

/-- `MetanameApiClient.request` (lines 55-83).  The HTTP layer is the
oracle `post`; the returned state is the client state after the call
(Python mutates `self.request_id` in place). -/
def MetanameApiClient.request (post : Payload → PostResult) (st : ClientState)
    (method : String) (params : List JVal) :
    Except ReqError JVal × ClientState :=
  let payload := requestPayload st method params
  match post payload with
  | .jsonDecodeError e => (.error (.notJson e), st)
  | .requestError e => (.error (.callFailed e), st)
  | .ok response =>
    if responseIdMatches response st.request_id then
      let st' : ClientState := { st with request_id := st.request_id + 1 }
      match dictGet response "result" with
      | some v => (.ok v, st')
      | none =>
        match dictGet response "error" with
        | some err => (.error (.apiError err), st')
        | none => (.error (.invalidResponse response), st')
    else
      (.error (.outOfSequence response), st)

/-! ## Zone resolution: `_metaname_domain_name_for_hostname` (lines 155-175) -/

/-- A CPython value that is statically either a `str` or a `list` of
`str`s: the type of the local variable `hostname` inside
`_metaname_domain_name_for_hostname`, which is rebound on line 164 from a
string to a *list* of strings (the `[1:]` slice of a `split` result). -/
inductive StrOrList where
  | s (v : String)
  | l (v : List String)

/-- The f-string rendering of a `StrOrList`: a string interpolates as
itself, a list as its Python repr. -/
def StrOrList.interp : StrOrList → String
  | .s v => v
  | .l v => reprStrList v

/-- External dependency `certbot.plugins.dns_common.base_domain_name_guesses`,
modelled from its published definition and docstring: on a string it
returns every progressively less-specific dot-suffix, starting with the
whole string and ending with the final single label
(`"a.b.c" ↦ ["a.b.c", "b.c", "c"]`).  It begins with `domain.split('.')`,
so on a non-string argument — such as the list the source passes it —
CPython raises `AttributeError` (a `list` has no `split` method). -/
def base_domain_name_guesses : StrOrList → Except String (List String)
  | .s d =>
    let fragments := pySplitDots d
    .ok ((List.range fragments.length).map (fun i => joinDots (fragments.drop i)))
  | .l _ => .error "list object has no attribute split"

/-- The probe loop on lines 168-174: try `request("dns_zone", guess)` for
each guess in order; any exception means `continue`, a normal return means
the guess is the answer.  The client state threads through every probe
(a probe that fails with an in-sequence API error still advanced the
request-id counter). -/
def zoneProbeLoop (post : Payload → PostResult) :
    ClientState → List String → Option String × ClientState
  | st, [] => (none, st)
  | st, guess :: guesses =>
    match MetanameApiClient.request post st "dns_zone" [.str guess] with
    | (.ok _, st') => (some guess, st')
    | (.error _, st') => zoneProbeLoop post st' guesses

/-- The exceptions the plugin-level code raises: `certbot.errors.PluginError`
with its message, or a CPython `AttributeError` escaping from the typing
slip on line 164/167. -/
inductive PyExc where
  | attributeError (msg : String)
  | pluginError (msg : String)

/-- `_metaname_domain_name_for_hostname` (lines 155-175).  Line 164 rebinds
`hostname` to `hostname.strip(".").split(".", 1)[1:]` — a LIST slice, so
the value is a list of at most one string, not a string.  Line 167 passes
that list to `base_domain_name_guesses`, and line 175's message
interpolates it.  Returns the resolved zone or the raised exception,
paired with the client state after all probes issued. -/
def Authenticator.metaname_domain_name_for_hostname
    (post : Payload → PostResult) (st : ClientState) (hostname : String) :
    Except PyExc String × ClientState :=
  let hostname' : StrOrList := .l (List.drop 1 (pySplitDotOnce (pyStripDots hostname)))
  match base_domain_name_guesses hostname' with
  | .error e => (.error (.attributeError e), st)
  | .ok guesses =>
    match zoneProbeLoop post st guesses with
    | (some guess, st') => (.ok guess, st')
    | (none, st') =>
      (.error (.pluginError ("Unable to find any Metaname zone for " ++ hostname'.interp)), st')

/-! ## TXT records: `_txt_record` (lines 129-140) -/

/-- `MetanameApiClient.minimum_ttl` (line 39). -/
def MetanameApiClient.minimum_ttl : Nat := 60

/-- The dictionary `_txt_record` returns: name, the literal type "TXT",
`aux: None`, the minimum TTL, and the record content. -/
structure TxtRecord where
  name : String
  type : String
  aux : Option JVal
  ttl : Nat
  data : String

/-- `_txt_record(name, content)` (lines 129-140). -/
def Authenticator.txt_record (name content : String) : TxtRecord :=
  { name := name
    type := "TXT"
    aux := none
    ttl := MetanameApiClient.minimum_ttl
    data := content }

/-- A `TxtRecord` as the JSON value sent in an RPC params list. -/
def TxtRecord.toJVal (r : TxtRecord) : JVal :=
  .obj [("name", .str r.name), ("type", .str r.type),
        ("aux", r.aux.getD .null), ("ttl", .int (r.ttl : Int)), ("data", .str r.data)]

/-! ## Record lifecycle: `_perform` (lines 177-194) and `_cleanup` (lines 196-216)

Two embeddings are given.  `performWith`/`cleanupWith` embed the two
methods with `self`'s collaborators — the zone resolver and the RPC
client call they make — as explicit function arguments, which is how the
source structures them (`self._metaname_domain_name_for_hostname`,
`self._metaname_client().request`); each returns its outcome, the new
`self.created_record_reference`, and the list of collaborator calls it
issued.  `performFull` is the same method with the collaborators
instantiated with this file's embeddings of those same methods. -/

/-- One collaborator call issued by `_perform`/`_cleanup`: an invocation
of the zone resolver (which in turn issues `dns_zone` probes), a
`create_dns_record` RPC, or a `delete_dns_record` RPC. -/
inductive Call where
  | resolveZone (hostname : String)
  | createRecord (zone : String) (record : TxtRecord)
  | deleteRecord (zone : String) (reference : JVal)

/-- `_perform(domain, validation_name, validation)` (lines 177-194), with
the resolver and the `create_dns_record` client call as arguments.  The
resolver runs outside the `try` (line 182), so its exception propagates
unwrapped and unlogged; a create failure is wrapped on lines 190-192 into
`PluginError` interpolating only `domain` and the cause's text `e`; on
success the response is stored in `created_record_reference` (line 194). -/
def Authenticator.performWith
    (resolve : String → Except PyExc String)
    (create : String → TxtRecord → Except String JVal)
    (domain validation_name validation : String)
    (created_record_reference : Option JVal) :
    Except PyExc Unit × Option JVal × List Call :=
  match resolve validation_name with
  | .error e => (.error e, created_record_reference, [.resolveZone validation_name])
  | .ok domain_name =>
    let record := Authenticator.txt_record (validation_name ++ ".") validation
    match create domain_name record with
    | .error e =>
      (.error (.pluginError
          ("Unable to create an acme-challenge record in the zone " ++ domain ++ ": " ++ e)),
       created_record_reference,
       [.resolveZone validation_name, .createRecord domain_name record])
    | .ok response =>
      (.ok (), some response,
       [.resolveZone validation_name, .createRecord domain_name record])

/-- `_cleanup(domain, validation_name, validation)` (lines 196-216), with
the resolver and the `delete_dns_record` client call as arguments.  With
no stored reference it raises `PluginError` on lines 201-204 before
invoking anything; otherwise it re-resolves the zone (line 206), issues
the delete, and on failure wraps it on lines 211-214 interpolating only
`domain` and the cause's text, leaving the reference set; on success it
clears the reference (line 216). -/
def Authenticator.cleanupWith
    (resolve : String → Except PyExc String)
    (delete : String → JVal → Except String JVal)
    (domain validation_name validation : String)
    (created_record_reference : Option JVal) :
    Except PyExc Unit × Option JVal × List Call :=
  match created_record_reference with
  | none =>
    (.error (.pluginError "Cannot clean up DNS because the record hasn't been created yet"),
     none, [])
  | some reference =>
    match resolve validation_name with
    | .error e => (.error e, some reference, [.resolveZone validation_name])
    | .ok domain_name =>
      match delete domain_name reference with
      | .error e =>
        (.error (.pluginError
            ("Unable to delete the acme-challenge record in the zone " ++ domain ++ ": " ++ e)),
         some reference,
         [.resolveZone validation_name, .deleteRecord domain_name reference])
      | .ok _ =>
        (.ok (), none,
         [.resolveZone validation_name, .deleteRecord domain_name reference])

/-- The error raised by `_perform` with its collaborators instantiated:
either the resolver's exception propagating unwrapped, or the
`PluginError` of lines 190-192, carried structurally (its message
interpolates `domain` and the cause). -/
inductive PerformErr where
  | resolverRaised (e : PyExc)
  | createFailed (domain : String) (cause : ReqError)

/-- `_perform` composed with the source's own resolver and client:
`performWith` with `resolve := _metaname_domain_name_for_hostname` and
`create := request("create_dns_record", ...)`, threading the client
state. -/
def Authenticator.performFull (post : Payload → PostResult)
    (st : ClientState) (created_record_reference : Option JVal)
    (domain validation_name validation : String) :
    Except PerformErr Unit × Option JVal × ClientState × List Call :=
  match Authenticator.metaname_domain_name_for_hostname post st validation_name with
  | (.error e, st') =>
    (.error (.resolverRaised e), created_record_reference, st', [.resolveZone validation_name])
  | (.ok domain_name, st') =>
    let record := Authenticator.txt_record (validation_name ++ ".") validation
    match MetanameApiClient.request post st' "create_dns_record"
        [.str domain_name, record.toJVal] with
    | (.error e, st'') =>
      (.error (.createFailed domain e), created_record_reference, st'',
       [.resolveZone validation_name, .createRecord domain_name record])
    | (.ok response, st'') =>
      (.ok (), some response, st'',
       [.resolveZone validation_name, .createRecord domain_name record])

/-! ## Claims about the RPC transport -/

/-- Claim C4: every call sends a request id equal to the pre-call counter,
and whenever the response id matches the request id the counter increments
by exactly 1, unconditionally before the payload is interpreted — so also
on the paths that then raise for the payload (`error` present, or neither
`result` nor `error` present). -/
theorem request_id_sent_and_counter_increment
    (post : Payload → PostResult) (st : ClientState) (method : String) (params : List JVal) :
    (requestPayload st method params).id = st.request_id ∧
    ∀ response, post (requestPayload st method params) = .ok response →
      responseIdMatches response st.request_id = true →
      (MetanameApiClient.request post st method params).2.request_id = st.request_id + 1 := by
  refine ⟨rfl, ?_⟩
  intro response hpost hmatch
  unfold MetanameApiClient.request
  simp only [hpost]
  rcases hres : dictGet response "result" with _ | v
  · rcases herr : dictGet response "error" with _ | err <;> simp [hmatch, hres, herr]
  · simp [hmatch, hres]

/-- Witness for C4, on the `ApiError` path: the response is in sequence
but carries only an `error` field, and the counter still goes from 0
to 1. -/
theorem request_id_sent_and_counter_increment_witness :
    responseIdMatches [("id", .int 0), ("error", .str "boom")] 0 = true ∧
    (MetanameApiClient.request (fun _ => .ok [("id", .int 0), ("error", .str "boom")])
        { request_id := 0, account_reference := "ref", api_key := "key" }
        "price" []).2.request_id = 0 + 1 :=
  ⟨rfl,
   (request_id_sent_and_counter_increment
      (fun _ => .ok [("id", .int 0), ("error", .str "boom")])
      { request_id := 0, account_reference := "ref", api_key := "key" }
      "price" []).2 [("id", .int 0), ("error", .str "boom")] rfl rfl⟩

/-- Claim C5: a decoded response whose id does not match the request id
makes the call raise the out-of-sequence error and leaves the client
state — in particular the request-id counter — unchanged. -/
theorem request_out_of_sequence_leaves_counter
    (post : Payload → PostResult) (st : ClientState) (method : String) (params : List JVal)
    (response : List (String × JVal))
    (hpost : post (requestPayload st method params) = .ok response)
    (hmismatch : responseIdMatches response st.request_id = false) :
    MetanameApiClient.request post st method params = (.error (.outOfSequence response), st) := by
  unfold MetanameApiClient.request
  simp only [hpost]
  simp [hmismatch]

/-- Witness for C5: a response whose id is the string "invalid" (as in the
repository's wrong-sequence test) raises out-of-sequence and the counter
stays 0. -/
theorem request_out_of_sequence_leaves_counter_witness :
    MetanameApiClient.request (fun _ => .ok [("id", .str "invalid")])
        { request_id := 0, account_reference := "ref", api_key := "key" } "wrong-sequence" []
      = (.error (.outOfSequence [("id", .str "invalid")]),
         { request_id := 0, account_reference := "ref", api_key := "key" }) :=
  request_out_of_sequence_leaves_counter (fun _ => .ok [("id", .str "invalid")])
    { request_id := 0, account_reference := "ref", api_key := "key" } "wrong-sequence" []
    [("id", .str "invalid")] rfl rfl

/-- Claim C6: for an in-sequence decoded response, a `result` field is
returned unchanged; otherwise an `error` field raises the API error
carrying that payload; otherwise the invalid-response error carrying the
whole payload is raised.  In each case the counter has incremented. -/
theorem request_result_error_invalid
    (post : Payload → PostResult) (st : ClientState) (method : String) (params : List JVal)
    (response : List (String × JVal))
    (hpost : post (requestPayload st method params) = .ok response)
    (hmatch : responseIdMatches response st.request_id = true) :
    (∀ v, dictGet response "result" = some v →
        MetanameApiClient.request post st method params
          = (.ok v, { st with request_id := st.request_id + 1 })) ∧
    (dictGet response "result" = none → ∀ err, dictGet response "error" = some err →
        MetanameApiClient.request post st method params
          = (.error (.apiError err), { st with request_id := st.request_id + 1 })) ∧
    (dictGet response "result" = none → dictGet response "error" = none →
        MetanameApiClient.request post st method params
          = (.error (.invalidResponse response), { st with request_id := st.request_id + 1 })) := by
  refine ⟨?_, ?_, ?_⟩
  · intro v hv
    unfold MetanameApiClient.request
    simp only [hpost]
    simp [hmatch, hv]
  · intro hnone err herr
    unfold MetanameApiClient.request
    simp only [hpost]
    simp [hmatch, hnone, herr]
  · intro hnone hnoerr
    unfold MetanameApiClient.request
    simp only [hpost]
    simp [hmatch, hnone, hnoerr]

/-- Witness for C6: the three response shapes, each in sequence from
counter 0 — a result is returned unchanged, an error payload is carried
by the API error, and an empty remainder raises invalid-response. -/
theorem request_result_error_invalid_witness :
    (MetanameApiClient.request (fun _ => .ok [("id", .int 0), ("result", .int 999)])
        { request_id := 0, account_reference := "ref", api_key := "key" } "price" []
      = (.ok (.int 999),
         { request_id := 1, account_reference := "ref", api_key := "key" })) ∧
    (MetanameApiClient.request (fun _ => .ok [("id", .int 0), ("error", .str "bad")])
        { request_id := 0, account_reference := "ref", api_key := "key" } "price" []
      = (.error (.apiError (.str "bad")),
         { request_id := 1, account_reference := "ref", api_key := "key" })) ∧
    (MetanameApiClient.request (fun _ => .ok [("id", .int 0), ("invalid", .str "invalid")])
        { request_id := 0, account_reference := "ref", api_key := "key" }
        "undefined-response" []
      = (.error (.invalidResponse [("id", .int 0), ("invalid", .str "invalid")]),
         { request_id := 1, account_reference := "ref", api_key := "key" })) :=
  ⟨(request_result_error_invalid (fun _ => .ok [("id", .int 0), ("result", .int 999)])
      { request_id := 0, account_reference := "ref", api_key := "key" } "price" []
      [("id", .int 0), ("result", .int 999)] rfl rfl).1 (.int 999) rfl,
   (request_result_error_invalid (fun _ => .ok [("id", .int 0), ("error", .str "bad")])
      { request_id := 0, account_reference := "ref", api_key := "key" } "price" []
      [("id", .int 0), ("error", .str "bad")] rfl rfl).2.1 rfl (.str "bad") rfl,
   (request_result_error_invalid (fun _ => .ok [("id", .int 0), ("invalid", .str "invalid")])
      { request_id := 0, account_reference := "ref", api_key := "key" }
      "undefined-response" []
      [("id", .int 0), ("invalid", .str "invalid")] rfl rfl).2.2 rfl rfl⟩

/-- Claim C10: when the POST itself raises or its body is not decodable as
JSON, the call raises the corresponding transport error with the whole
client state unchanged, before any response-id handling; a next call from
that state therefore sends the same request id. -/
theorem request_transport_failure_frame
    (post : Payload → PostResult) (st : ClientState) (method : String) (params : List JVal)
    (e : String) :
    (post (requestPayload st method params) = .jsonDecodeError e →
        MetanameApiClient.request post st method params = (.error (.notJson e), st)) ∧
    (post (requestPayload st method params) = .requestError e →
        MetanameApiClient.request post st method params = (.error (.callFailed e), st)) ∧
    (∀ method2 params2, (requestPayload st method2 params2).id = st.request_id) := by
  refine ⟨?_, ?_, fun _ _ => rfl⟩
  · intro hpost
    unfold MetanameApiClient.request
    simp only [hpost]
  · intro hpost
    unfold MetanameApiClient.request
    simp only [hpost]

/-- Witness for C10: a POST whose body is not JSON fails with the
not-JSON transport error and the state is exactly the pre-call state, so
the next payload carries id 0 again. -/
theorem request_transport_failure_frame_witness :
    MetanameApiClient.request (fun _ => .jsonDecodeError "Expecting value")
        { request_id := 0, account_reference := "ref", api_key := "key" } "invalid-json" []
      = (.error (.notJson "Expecting value"),
         { request_id := 0, account_reference := "ref", api_key := "key" }) :=
  (request_transport_failure_frame (fun _ => .jsonDecodeError "Expecting value")
    { request_id := 0, account_reference := "ref", api_key := "key" } "invalid-json" []
    "Expecting value").1 rfl

/-! ## Claims about zone resolution -/

/-- Claim C1 (code bug): instead of stripping the leading label and
probing progressively shorter suffix candidates, zone resolution raises
`AttributeError` for EVERY hostname, before issuing any probe: line 164's
`hostname.strip(".").split(".", 1)[1:]` is a list slice, so a list — not a
string — reaches `base_domain_name_guesses`, whose `domain.split('.')`
then fails.  In particular no `dns_zone` probe is ever issued and no
candidate is ever returned, contradicting the function's own docstring and
the repository's `test_find_zone`. -/
theorem zone_resolution_always_raises_attribute_error
    (post : Payload → PostResult) (st : ClientState) (hostname : String) :
    Authenticator.metaname_domain_name_for_hostname post st hostname
      = (.error (.attributeError "list object has no attribute split"), st) := rfl

/-- Classifier for the zone-not-found outcome: the resolver raised a
`PluginError` (the spec's `ZoneNotFoundError`, raised on line 175). -/
def raisesPluginError : Except PyExc String × ClientState → Bool
  | (.error (.pluginError _), _) => true
  | _ => false

/-- Claim C3 (code bug): at a hostname none of whose candidate zones the
provider owns (the repository test's `_acme-challenge.something.example.org`),
and indeed against any provider, the resolver never raises the
zone-not-found `PluginError` of line 175: it raises `AttributeError`
before the probe loop, so the candidates are never exhausted and no
message naming any hostname is produced. -/
theorem zone_not_found_error_unreachable
    (post : Payload → PostResult) (st : ClientState) :
    raisesPluginError (Authenticator.metaname_domain_name_for_hostname post st
        "_acme-challenge.something.example.org") = false ∧
    Authenticator.metaname_domain_name_for_hostname post st
        "_acme-challenge.something.example.org"
      = (.error (.attributeError "list object has no attribute split"), st) :=
  ⟨rfl, rfl⟩

/-! ## Claims about the record lifecycle -/

/-- Counterexample to claim C2: a run of `_perform` (collaborators
explicit) in which the resolver returned zone "example.net" and
`create_dns_record` failed.  The raised message interpolates only the
`domain` argument ("example.com") and the cause; the resolved zone
"example.net" — visible in the issued-call trace — does not occur in the
message, refuting "names both the domain and the resolved zone". -/
theorem perform_error_message_omits_zone_counterexample :
    Authenticator.performWith (fun _ => .ok "example.net") (fun _ _ => .error "boom")
        "example.com" "_acme-challenge.test.example.net" "validation" none
      = (.error (.pluginError
           "Unable to create an acme-challenge record in the zone example.com: boom"),
         none,
         [.resolveZone "_acme-challenge.test.example.net",
          .createRecord "example.net"
            (Authenticator.txt_record "_acme-challenge.test.example.net." "validation")]) ∧
    strContains "Unable to create an acme-challenge record in the zone example.com: boom"
        "example.net" = false :=
  ⟨rfl, by decide⟩

/-- Claim C2 as amended: when zone resolution returned a zone and
`create_dns_record` then raises, `_perform` raises the `PluginError` of
lines 190-192, whose message names the domain (which the message labels
as the zone) and the cause — but not the resolved zone — and the stored
record reference is left unchanged, so it remains unset when it was
unset. -/
theorem perform_create_failure
    (resolve : String → Except PyExc String)
    (create : String → TxtRecord → Except String JVal)
    (domain validation_name validation : String) (ref : Option JVal) (zone e : String)
    (hres : resolve validation_name = .ok zone)
    (hcreate : create zone (Authenticator.txt_record (validation_name ++ ".") validation)
        = .error e) :
    Authenticator.performWith resolve create domain validation_name validation ref
      = (.error (.pluginError
           ("Unable to create an acme-challenge record in the zone " ++ domain ++ ": " ++ e)),
         ref,
         [.resolveZone validation_name,
          .createRecord zone (Authenticator.txt_record (validation_name ++ ".") validation)]) := by
  unfold Authenticator.performWith
  simp only [hres]
  simp [hcreate]

/-- Witness for the amended C2: concrete collaborators where the zone
resolves to "example.com" and creation fails; the reference (here already
set to some value, so the frame condition is visible) is unchanged. -/
theorem perform_create_failure_witness :
    Authenticator.performWith (fun _ => .ok "example.com") (fun _ _ => .error "oops")
        "test.example.com" "_acme-challenge.test.example.com" "tv" (some (.str "r"))
      = (.error (.pluginError
           "Unable to create an acme-challenge record in the zone test.example.com: oops"),
         some (.str "r"),
         [.resolveZone "_acme-challenge.test.example.com",
          .createRecord "example.com"
            (Authenticator.txt_record "_acme-challenge.test.example.com." "tv")]) :=
  perform_create_failure (fun _ => .ok "example.com") (fun _ _ => .error "oops")
    "test.example.com" "_acme-challenge.test.example.com" "tv" (some (.str "r"))
    "example.com" "oops" rfl rfl

/-- Claim C7 (code bug): the TXT-record builder does yield exactly
the claimed dictionary (name, literal "TXT", aux None, ttl 60, content)
for every input — but the claimed end-to-end `perform` scenario fails:
with the collaborators instantiated with the source's own resolver and
client, `perform("example.com", "_acme-challenge.test.example.com",
"test_validation")` raises the resolver's `AttributeError` against EVERY
provider, issues no `create_dns_record` call, and stores no handle,
contradicting the repository's `test_perform_success`. -/
theorem txt_record_shape_and_perform_scenario :
    (∀ name content : String, Authenticator.txt_record name content
        = { name := name, type := "TXT", aux := none, ttl := 60, data := content }) ∧
    ∀ (post : Payload → PostResult) (st : ClientState),
      Authenticator.performFull post st none "example.com"
          "_acme-challenge.test.example.com" "test_validation"
        = (.error (.resolverRaised (.attributeError "list object has no attribute split")),
           none, st, [.resolveZone "_acme-challenge.test.example.com"]) :=
  ⟨fun _ _ => rfl, fun _ _ => rfl⟩

/-- Claim C8: with no stored record reference, `_cleanup` raises its
lifecycle `PluginError` without invoking any collaborator (no RPC call at
all); with a stored reference it first re-invokes the zone resolver on
the validation hostname, and whenever the resolver yields a zone it
issues `delete_dns_record` with that zone and the stored reference. -/
theorem cleanup_requires_and_uses_stored_handle
    (resolve : String → Except PyExc String)
    (delete : String → JVal → Except String JVal)
    (domain validation_name validation : String) :
    (Authenticator.cleanupWith resolve delete domain validation_name validation none
       = (.error (.pluginError "Cannot clean up DNS because the record hasn't been created yet"),
          none, [])) ∧
    (∀ reference : JVal,
       (Authenticator.cleanupWith resolve delete domain validation_name validation
           (some reference)).2.2.head? = some (.resolveZone validation_name)) ∧
    (∀ (reference : JVal) (zone : String), resolve validation_name = .ok zone →
       Call.deleteRecord zone reference ∈
         (Authenticator.cleanupWith resolve delete domain validation_name validation
             (some reference)).2.2) := by
  refine ⟨rfl, ?_, ?_⟩
  · intro reference
    unfold Authenticator.cleanupWith
    rcases hres : resolve validation_name with e | zone
    · simp [hres]
    · rcases hdel : delete zone reference with e | v <;> simp [hres, hdel]
  · intro reference zone hres
    unfold Authenticator.cleanupWith
    rcases hdel : delete zone reference with e | v <;> simp [hres, hdel]

/-- Witness for C8: with a resolver owning "example.com" and a stored
reference, cleanup issues the delete for exactly that zone and
reference. -/
theorem cleanup_requires_and_uses_stored_handle_witness :
    Call.deleteRecord "example.com" (.str "record_reference") ∈
      (Authenticator.cleanupWith (fun _ => .ok "example.com") (fun _ _ => .ok (.obj []))
          "example.com" "_acme-challenge.test.example.com" "test_validation"
          (some (.str "record_reference"))).2.2 :=
  (cleanup_requires_and_uses_stored_handle (fun _ => .ok "example.com")
      (fun _ _ => .ok (.obj [])) "example.com" "_acme-challenge.test.example.com"
      "test_validation").2.2 (.str "record_reference") "example.com" rfl

/-- Counterexample to claim C9: a run of `_cleanup` with a stored
reference in which the resolver returned zone "example.net" and
`delete_dns_record` failed.  The raised message interpolates only the
`domain` argument ("example.com") and the cause; the resolved zone
"example.net" does not occur in it, refuting "naming the domain and
zone" (the handle-left-set part does hold, as the amended claim shows). -/
theorem cleanup_error_message_omits_zone_counterexample :
    Authenticator.cleanupWith (fun _ => .ok "example.net") (fun _ _ => .error "boom")
        "example.com" "_acme-challenge.test.example.net" "validation" (some (.str "ref"))
      = (.error (.pluginError
           "Unable to delete the acme-challenge record in the zone example.com: boom"),
         some (.str "ref"),
         [.resolveZone "_acme-challenge.test.example.net",
          .deleteRecord "example.net" (.str "ref")]) ∧
    strContains "Unable to delete the acme-challenge record in the zone example.com: boom"
        "example.net" = false :=
  ⟨rfl, by decide⟩

/-- Claim C9 as amended: with a stored reference and the zone resolved,
a successful delete clears the stored reference (back to Idle), and a
failed delete raises the `PluginError` of lines 211-214 — whose message
names the domain (labelled as the zone) and the cause, but not the
resolved zone — with the stored reference left set. -/
theorem cleanup_delete_outcomes
    (resolve : String → Except PyExc String)
    (delete : String → JVal → Except String JVal)
    (domain validation_name validation : String) (reference : JVal) (zone : String)
    (hres : resolve validation_name = .ok zone) :
    (∀ v, delete zone reference = .ok v →
       Authenticator.cleanupWith resolve delete domain validation_name validation
           (some reference)
         = (.ok (), none, [.resolveZone validation_name, .deleteRecord zone reference])) ∧
    (∀ e, delete zone reference = .error e →
       Authenticator.cleanupWith resolve delete domain validation_name validation
           (some reference)
         = (.error (.pluginError
              ("Unable to delete the acme-challenge record in the zone " ++ domain ++ ": " ++ e)),
            some reference,
            [.resolveZone validation_name, .deleteRecord zone reference])) := by
  constructor
  · intro v hdel
    unfold Authenticator.cleanupWith
    simp [hres, hdel]
  · intro e hdel
    unfold Authenticator.cleanupWith
    simp [hres, hdel]

/-- Witness for the amended C9: both outcomes at concrete inputs — a
successful delete clears the stored reference, a failing delete keeps it
and raises the message naming the domain. -/
theorem cleanup_delete_outcomes_witness :
    (Authenticator.cleanupWith (fun _ => .ok "example.com") (fun _ _ => .ok (.obj []))
        "example.com" "_acme-challenge.test.example.com" "tv" (some (.str "record_reference"))
      = (.ok (), none,
         [.resolveZone "_acme-challenge.test.example.com",
          .deleteRecord "example.com" (.str "record_reference")])) ∧
    (Authenticator.cleanupWith (fun _ => .ok "example.com") (fun _ _ => .error "down")
        "example.com" "_acme-challenge.test.example.com" "tv" (some (.str "record_reference"))
      = (.error (.pluginError
           "Unable to delete the acme-challenge record in the zone example.com: down"),
         some (.str "record_reference"),
         [.resolveZone "_acme-challenge.test.example.com",
          .deleteRecord "example.com" (.str "record_reference")])) :=
  ⟨(cleanup_delete_outcomes (fun _ => .ok "example.com") (fun _ _ => .ok (.obj []))
      "example.com" "_acme-challenge.test.example.com" "tv" (.str "record_reference")
      "example.com" rfl).1 (.obj []) rfl,
   (cleanup_delete_outcomes (fun _ => .ok "example.com") (fun _ _ => .error "down")
      "example.com" "_acme-challenge.test.example.com" "tv" (.str "record_reference")
      "example.com" rfl).2 "down" rfl⟩
